import Mathlib

/-!
Shallow embedding of the concentrated-liquidity tick module
(`x/concentrated-liquidity/tick.go` of notional-labs/osmosis) and proofs
about it.

Modelling conventions:
* `sdk.Dec` (a fixed-point decimal with exact `Add`/`Sub`) is modelled as `ℚ`.
* The KV store, the pool registry and the block time are gathered in a
  `State` record; each keeper method becomes a function
  `State → args → Except Err result`.  Returning `Except.error` models both a
  returned Go error and a Go runtime panic (constructor `Err.goPanic`); in the
  surrounding Cosmos-SDK execution model an error or panic aborts the whole
  transaction with no partial state change, which the `Except` embedding
  reflects by not producing a post-state on error.
* Go `for i, x := range xs` loops are transliterated as structural recursions
  that walk the list(s) in index order; an out-of-range slice index becomes
  `Err.goPanic`.
-/

/-- `sdk.Dec` modelled as exact rationals. -/
abbrev Dec := ℚ

/-- `model.TickIncentivizedLiquidityRecord`: per-tick per-incentive sub-record. -/
structure TickIncentivizedLiquidityRecord where
  id : ℕ
  incentivizedLiquidityGross : Dec
  incentivizedLiquidityNet : Dec
  secondsPerIncentivizedLiquidityOutside : Dec
deriving DecidableEq

/-- `model.TickInfo`: per (pool, tick index) ledger entry. `secondsInactive`
(a Go `time.Duration`) is modelled in seconds as a rational. -/
structure TickInfo where
  liquidityGross : Dec
  liquidityNet : Dec
  secondsInactive : Dec
  tickIncentivizedLiquidityRecords : List TickIncentivizedLiquidityRecord
deriving DecidableEq

/-- Per-pool incentive accumulator record (`PoolIncentivizedLiquidityRecord`). -/
structure PoolIncentivizedLiquidityRecord where
  id : ℕ
  secondsPerIncentivizedLiquidityGlobal : Dec
deriving DecidableEq

/-- The slice of a pool that the tick module reads and writes: creation time
(seconds) and the ordered incentive accumulator list. -/
structure Pool where
  timeOfCreation : Dec
  poolIncentivizedLiquidityRecords : List PoolIncentivizedLiquidityRecord
deriving DecidableEq

/-- The keeper state: pool registry, tick KV store and the block time
(`ctx.BlockTime()`, in seconds). -/
structure State where
  pools : ℕ → Option Pool
  ticks : ℕ → Int → Option TickInfo
  blockTime : Dec

/-- The error kinds of the module.  `goPanic` stands for a Go runtime panic
(index out of range, `Dec.Quo` division by zero, modulo by zero). -/
inductive Err where
  | poolNotFound (poolId : ℕ)
  | tickSpacingError (lowerTick upperTick : Int) (tickSpacing : ℕ)
  | invalidTickError (tick : Int) (isLower : Bool)
  | invalidLowerUpperTickError (lowerTick upperTick : Int)
  | goPanic
deriving DecidableEq

/-- Overwrite one tick entry (`SetTickInfo`, tick.go lines 170-174). -/
def State.setTick (s : State) (poolId : ℕ) (tickIndex : Int) (t : TickInfo) : State :=
  { s with ticks := fun p i => if p = poolId ∧ i = tickIndex then some t else s.ticks p i }

/-- Overwrite one pool entry (`setPool`). -/
def State.setPool (s : State) (poolId : ℕ) (pl : Pool) : State :=
  { s with pools := fun p => if p = poolId then some pl else s.pools p }

/-- The zero-valued tick record returned for a never-written key
(tick.go line 161: `model.TickInfo{LiquidityGross: sdk.ZeroDec(), LiquidityNet: sdk.ZeroDec()}`,
remaining fields at their Go zero values). -/
def zeroTick : TickInfo :=
  { liquidityGross := 0, liquidityNet := 0, secondsInactive := 0,
    tickIncentivizedLiquidityRecords := [] }

/-- `getTickInfo` (tick.go lines 150-168): fails with `PoolNotFoundError` when
the pool does not exist, returns the stored record, or the zero record when
the key has never been written. -/
def getTickInfo (s : State) (poolId : ℕ) (tickIndex : Int) : Except Err TickInfo :=
  match s.pools poolId with
  | none => .error (.poolNotFound poolId)
  | some _ =>
    match s.ticks poolId tickIndex with
    | none => .ok zeroTick
    | some t => .ok t

/-- Modelled from the spec: `math.AddLiquidity` (package
`concentrated-liquidity/internal/math`, not under src).  Per §4.2 it is "an
additive combinator that is symmetric regardless of delta's sign (adding
negative liquidity is a subtraction)", i.e. plain addition on exact decimals. -/
def AddLiquidity (a b : Dec) : Dec := a + b

/-- A fresh zero-valued tick incentive record for incentive `incId`
(tick.go lines 68-72 and 84-88; `SecondsPerIncentivizedLiquidityOutside` is
left at its zero value by the Go composite literal). -/
def zeroTickRecordFor (incId : ℕ) : TickIncentivizedLiquidityRecord :=
  { id := incId, incentivizedLiquidityGross := 0, incentivizedLiquidityNet := 0,
    secondsPerIncentivizedLiquidityOutside := 0 }

/-- The incentive-record reconciliation block of `initOrUpdateTick`
(tick.go lines 62-91).  Observable semantics of the source:
* empty tick list: one zero record per pool record is created (lines 62-73);
* differing lengths (lines 74-91): the loop indexes
  `tickInfo.TickIncentivizedLiquidityRecords[i]` for every `i` below the pool
  list's length, so it panics as soon as `i` reaches the tick list's length,
  i.e. exactly when the pool list is longer; otherwise the computed slice
  `newTickIncentivizedLiquidityRecords` is never assigned back to `tickInfo`,
  so the tick's records are left unchanged;
* equal nonzero lengths: no reconciliation. -/
def reconcileTickRecords (tickRecs : List TickIncentivizedLiquidityRecord)
    (poolRecs : List PoolIncentivizedLiquidityRecord) :
    Except Err (List TickIncentivizedLiquidityRecord) :=
  if tickRecs.length = 0 then
    .ok (poolRecs.map fun r => zeroTickRecordFor r.id)
  else if poolRecs.length ≠ tickRecs.length then
    if tickRecs.length < poolRecs.length then .error .goPanic
    else .ok tickRecs
  else .ok tickRecs

/-- The gross/net update applied to a tick incentive record when its id
matches a committed incentive id (tick.go lines 96-103). -/
def updateRec (r : TickIncentivizedLiquidityRecord) (liquidityIn : Dec) (upper : Bool) :
    TickIncentivizedLiquidityRecord :=
  { r with
    incentivizedLiquidityGross := AddLiquidity r.incentivizedLiquidityGross liquidityIn,
    incentivizedLiquidityNet :=
      if upper then r.incentivizedLiquidityNet - liquidityIn
      else r.incentivizedLiquidityNet + liquidityIn }

/-- The committed-incentive update loop of `initOrUpdateTick`
(tick.go lines 94-105): `for i, incentiveID := range incentiveIDsCommittedTo`
pairs `incentiveIDsCommittedTo[i]` with `tickInfo.TickIncentivizedLiquidityRecords[i]`
in index order; an index beyond the record list is a Go runtime panic; a
record whose id differs from the same-index committed id is left untouched. -/
def applyCommitted : List TickIncentivizedLiquidityRecord → List ℕ → Dec → Bool →
    Except Err (List TickIncentivizedLiquidityRecord)
  | recs, [], _, _ => .ok recs
  | [], _ :: _, _, _ => .error .goPanic
  | r :: recs, incId :: rest, liq, up =>
    match applyCommitted recs rest liq up with
    | .error e => .error e
    | .ok recs2 => .ok ((if r.id = incId then updateRec r liq up else r) :: recs2)

/-- `initOrUpdateTick` (tick.go lines 17-110). -/
def initOrUpdateTick (s : State) (poolId : ℕ) (tickIndex : Int) (liquidityIn : Dec)
    (upper : Bool) (incentiveIDsCommittedTo : List ℕ) : Except Err State :=
  match s.pools poolId with
  | none => .error (.poolNotFound poolId)
  | some pool =>
    match getTickInfo s poolId tickIndex with
    | .error e => .error e
    | .ok tickInfo0 =>
      let tickInfo1 :=
        if tickInfo0.liquidityGross = 0 ∧ tickInfo0.liquidityNet = 0 then
          { tickInfo0 with secondsInactive := s.blockTime - pool.timeOfCreation }
        else tickInfo0
      let tickInfo2 :=
        { tickInfo1 with liquidityGross := AddLiquidity tickInfo1.liquidityGross liquidityIn }
      let tickInfo3 :=
        { tickInfo2 with liquidityNet :=
            if upper then tickInfo2.liquidityNet - liquidityIn
            else tickInfo2.liquidityNet + liquidityIn }
      match reconcileTickRecords tickInfo3.tickIncentivizedLiquidityRecords
          pool.poolIncentivizedLiquidityRecords with
      | .error e => .error e
      | .ok recs1 =>
        match applyCommitted recs1 incentiveIDsCommittedTo liquidityIn upper with
        | .error e => .error e
        | .ok recs2 =>
          .ok (State.setTick s poolId tickIndex
            { tickInfo3 with tickIncentivizedLiquidityRecords := recs2 })

/-- The per-record seconds-per-liquidity value that tick.go line 131 computes:
`secondsInactive / incentivizedLiquidityGross`. -/
def secondsPerIncentivizedLiquidityOutsideFresh (secondsInactive gross : Dec) : Dec :=
  secondsInactive / gross

/-- The record loop of `crossTick` (tick.go lines 130-132).  The Go range
variable `tickIncentivizedLiquidityRecord` is a copy of the slice element, so
the assignment of the freshly computed quotient mutates only the copy and the
stored records are unchanged; the only observable effect is the `Dec.Quo`
runtime panic when a record's `IncentivizedLiquidityGross` is zero. -/
def crossTickRecordsScan (secondsInactive : Dec) :
    List TickIncentivizedLiquidityRecord → Except Err Unit
  | [] => .ok ()
  | r :: rest =>
    if r.incentivizedLiquidityGross = 0 then .error .goPanic
    else
      let _discarded :=
        secondsPerIncentivizedLiquidityOutsideFresh secondsInactive r.incentivizedLiquidityGross
      crossTickRecordsScan secondsInactive rest

/-- The pool accumulator loop of `crossTick` (tick.go lines 136-140).  The Go
range variable `poolRecord` is again a copy (the pool's record slice holds
struct values, cf. the composite literals appended at tick.go line 68 for the
analogous tick slice), so the `Add` result is lost and
`SetPoolIncentivizedLiquidityRecords` re-stores the unchanged slice; the line
138 index `tickInfo.TickIncentivizedLiquidityRecords[i]` panics when the pool
list is longer than the tick's record list. -/
def crossTickPoolRecordsPass (tickRecs : List TickIncentivizedLiquidityRecord)
    (poolRecs : List PoolIncentivizedLiquidityRecord) :
    Except Err (List PoolIncentivizedLiquidityRecord) :=
  if poolRecs.length ≤ tickRecs.length then .ok poolRecs else .error .goPanic

/-- `crossTick` (tick.go lines 112-147). -/
def crossTick (s : State) (poolId : ℕ) (tickIndex : Int) : Except Err (Dec × State) :=
  match getTickInfo s poolId tickIndex with
  | .error e => .error e
  | .ok tickInfo0 =>
    match s.pools poolId with
    | none => .error (.poolNotFound poolId)
    | some pool =>
      let tickInfo1 := { tickInfo0 with secondsInactive := s.blockTime - pool.timeOfCreation }
      match crossTickRecordsScan tickInfo1.secondsInactive
          tickInfo1.tickIncentivizedLiquidityRecords with
      | .error e => .error e
      | .ok _ =>
        let s1 := State.setTick s poolId tickIndex tickInfo1
        match crossTickPoolRecordsPass tickInfo1.tickIncentivizedLiquidityRecords
            pool.poolIncentivizedLiquidityRecords with
        | .error e => .error e
        | .ok poolRecs =>
          let s2 := State.setPool s1 poolId { pool with poolIncentivizedLiquidityRecords := poolRecs }
          .ok (tickInfo1.liquidityNet, s2)

/-- `validateTickRangeIsValid` (tick.go lines 181-202).  The constants
`types.MinTick` and `types.MaxTick` live in the `types` package, which is not
under src, so the validator is parametrized over them.  Go's `%` on `int64`
is truncated division remainder (`Int.tmod`); `% 0` is a Go runtime panic. -/
def validateTickRangeIsValid (minTick maxTick : Int) (tickSpacing : ℕ)
    (lowerTick upperTick : Int) : Option Err :=
  if tickSpacing = 0 then some .goPanic
  else if Int.tmod lowerTick (Int.ofNat tickSpacing) ≠ 0 ∨
      Int.tmod upperTick (Int.ofNat tickSpacing) ≠ 0 then
    some (.tickSpacingError lowerTick upperTick tickSpacing)
  else if lowerTick < minTick ∨ lowerTick ≥ maxTick then
    some (.invalidTickError lowerTick true)
  else if upperTick > maxTick ∨ upperTick ≤ minTick then
    some (.invalidTickError upperTick false)
  else if lowerTick ≥ upperTick then
    some (.invalidLowerUpperTickError lowerTick upperTick)
  else none

/-- Modelled from the spec: §4.4 step 5 of `createPosition` (and the negated
variant in `withdrawPosition`), whose orchestrating code is not under src,
applies the liquidity delta to both boundary ticks via `initOrUpdateTick`,
"once with upper=false at lowerTick, once with upper=true at upperTick". -/
def applyPositionTicks (s : State) (poolId : ℕ) (lowerTick upperTick : Int)
    (delta : Dec) (ids : List ℕ) : Except Err State :=
  match initOrUpdateTick s poolId lowerTick delta false ids with
  | .error e => .error e
  | .ok s1 => initOrUpdateTick s1 poolId upperTick delta true ids

/-- The `liquidityNet` contribution of one tick key: the stored value, or `0`
for a never-written key (the zero default of the ledger). -/
def tickNetAt (s : State) (poolId : ℕ) (i : Int) : Dec :=
  match s.ticks poolId i with
  | none => 0
  | some t => t.liquidityNet

/-- Sum of `liquidityNet` over a finite set of tick indices of one pool. -/
def netSum (s : State) (poolId : ℕ) (fs : Finset Int) : Dec :=
  ∑ i ∈ fs, tickNetAt s poolId i

/-- Boolean test for an `InvalidTickError` outcome of the validator. -/
def isInvalidTickResult : Option Err → Bool
  | some (Err.invalidTickError _ _) => true
  | _ => false

/-- Boolean test for an `InvalidLowerUpperTickError` outcome of the validator. -/
def isInvalidLowerUpperResult : Option Err → Bool
  | some (Err.invalidLowerUpperTickError _ _) => true
  | _ => false

/-- Pure characterization of the committed-incentive loop on its non-panicking
domain: record `i` is updated exactly when its id equals `committed[i]`. -/
def applyCommittedFun : List TickIncentivizedLiquidityRecord → List ℕ → Dec → Bool →
    List TickIncentivizedLiquidityRecord
  | recs, [], _, _ => recs
  | [], _ :: _, _, _ => []
  | r :: recs, incId :: rest, liq, up =>
    (if r.id = incId then updateRec r liq up else r) :: applyCommittedFun recs rest liq up

/-- Example pool for the `crossTick` runs: created at time 0, one incentive
accumulator (id 1) with `secondsPerIncentivizedLiquidityGlobal = 5`. -/
def crossExPool : Pool := { timeOfCreation := 0, poolIncentivizedLiquidityRecords := [⟨1, 5⟩] }

/-- Example tick: one incentive record (id 1) with gross liquidity 1 and
`secondsPerIncentivizedLiquidityOutside = 0`. -/
def crossExTick : TickInfo :=
  { liquidityGross := 1, liquidityNet := 1, secondsInactive := 0,
    tickIncentivizedLiquidityRecords := [⟨1, 1, 1, 0⟩] }

/-- Example state: pool 1 with `crossExPool`, tick 0 with `crossExTick`,
block time 10 seconds after pool creation. -/
def crossExSt : State :=
  { pools := fun p => if p = 1 then some crossExPool else none,
    ticks := fun p i => if p = 1 ∧ i = 0 then some crossExTick else none,
    blockTime := 10 }

/-- The result of crossing tick 0 of pool 1 in `crossExSt`. -/
def crossExRun : Except Err (Dec × State) := crossTick crossExSt 1 0

/-- The `secondsPerIncentivizedLiquidityOutside` values of the persisted tick
after the example cross. -/
def crossExPersistedOutside : Option (List Dec) :=
  match crossExRun with
  | .ok (_, s2) => (s2.ticks 1 0).map fun t =>
      t.tickIncentivizedLiquidityRecords.map fun r => r.secondsPerIncentivizedLiquidityOutside
  | .error _ => none

/-- The pool's `secondsPerIncentivizedLiquidityGlobal` values after the
example cross. -/
def crossExPoolGlobals : Option (List Dec) :=
  match crossExRun with
  | .ok (_, s2) => (s2.pools 1).map fun pl =>
      pl.poolIncentivizedLiquidityRecords.map fun r => r.secondsPerIncentivizedLiquidityGlobal
  | .error _ => none

/-- Example tick whose single incentive record has zero
`incentivizedLiquidityGross`. -/
def c4ExTick : TickInfo :=
  { liquidityGross := 1, liquidityNet := 1, secondsInactive := 0,
    tickIncentivizedLiquidityRecords := [⟨1, 0, 0, 0⟩] }

/-- Example state for the zero-gross division: pool 1, tick 0 holds `c4ExTick`. -/
def c4ExSt : State :=
  { pools := fun p => if p = 1 then some crossExPool else none,
    ticks := fun p i => if p = 1 ∧ i = 0 then some c4ExTick else none,
    blockTime := 10 }

/-- The error (if any) produced by crossing the zero-gross tick. -/
def c4ExResult : Option Err :=
  match crossTick c4ExSt 1 0 with
  | .error e => some e
  | .ok _ => none

/-- Example pool with two incentive accumulators (ids 1 and 2). -/
def c7ExPool : Pool :=
  { timeOfCreation := 0, poolIncentivizedLiquidityRecords := [⟨1, 0⟩, ⟨2, 0⟩] }

/-- Example state whose tick carries one incentive record while the pool
carries two (the pool's incentive set has grown). -/
def c7ExSt : State :=
  { pools := fun p => if p = 1 then some c7ExPool else none,
    ticks := fun p i => if p = 1 ∧ i = 0 then some crossExTick else none,
    blockTime := 10 }

/-- Example pool with a single incentive accumulator (id 1). -/
def c7ShrinkPool : Pool :=
  { timeOfCreation := 0, poolIncentivizedLiquidityRecords := [⟨1, 0⟩] }

/-- Example tick with two incentive records (ids 1 and 2), more than its pool. -/
def c7ShrinkTick : TickInfo :=
  { liquidityGross := 1, liquidityNet := 1, secondsInactive := 0,
    tickIncentivizedLiquidityRecords := [⟨1, 1, 1, 0⟩, ⟨2, 1, 1, 0⟩] }

/-- Example state where the tick's record list is longer than the pool's. -/
def c7ShrinkSt : State :=
  { pools := fun p => if p = 1 then some c7ShrinkPool else none,
    ticks := fun p i => if p = 1 ∧ i = 0 then some c7ShrinkTick else none,
    blockTime := 10 }

/-- The ids of the persisted tick's incentive records after running
`initOrUpdateTick` on `c7ShrinkSt` (tick list longer than pool list). -/
def c7ShrinkPersistedIds : Option (List ℕ) :=
  match initOrUpdateTick c7ShrinkSt 1 0 1 false [] with
  | .ok s2 => (s2.ticks 1 0).map fun t => t.tickIncentivizedLiquidityRecords.map fun r => r.id
  | .error _ => none

/-- Example empty pool (no incentives) for the net-sum witness. -/
def c1ExSt : State :=
  { pools := fun p =>
      if p = 1 then some { timeOfCreation := 0, poolIncentivizedLiquidityRecords := [] } else none,
    ticks := fun _ _ => none,
    blockTime := 0 }

/-- The state after opening a position on ticks 0 and 1 of pool 1 in `c1ExSt`. -/
def c1ExRes : State :=
  match applyPositionTicks c1ExSt 1 0 1 5 [] with
  | .ok s2 => s2
  | .error _ => c1ExSt

/-- Example state with pool 1 registered and an empty tick store. -/
def c8ExSt : State :=
  { pools := fun p =>
      if p = 1 then some { timeOfCreation := 0, poolIncentivizedLiquidityRecords := [] } else none,
    ticks := fun _ _ => none,
    blockTime := 0 }

/-- Example state with no pools at all. -/
def c9ExSt : State := { pools := fun _ => none, ticks := fun _ _ => none, blockTime := 0 }

/-- Example records and committed ids for the positional-update witness:
index 0 matches (id 7), index 1 does not (record id 8 vs committed id 9). -/
def c10ExRecs : List TickIncentivizedLiquidityRecord := [⟨7, 1, 1, 0⟩, ⟨8, 2, 2, 0⟩]

/-- Committed incentive ids paired positionally with `c10ExRecs`. -/
def c10ExIds : List ℕ := [7, 9]

lemma tickNetAt_setTick_self (s : State) (p : ℕ) (i : Int) (T : TickInfo) :
    tickNetAt (s.setTick p i T) p i = T.liquidityNet := by
  simp [tickNetAt, State.setTick]

lemma tickNetAt_setTick_other (s : State) (p : ℕ) (i : Int) (T : TickInfo)
    (j : Int) (hj : j ≠ i) : tickNetAt (s.setTick p i T) p j = tickNetAt s p j := by
  simp [tickNetAt, State.setTick, hj]

lemma initOrUpdateTick_spec (s s' : State) (p : ℕ) (i : Int) (liq : Dec) (up : Bool)
    (ids : List ℕ) (hok : initOrUpdateTick s p i liq up ids = .ok s') :
    s'.pools = s.pools ∧
    (∀ j, j ≠ i → tickNetAt s' p j = tickNetAt s p j) ∧
    tickNetAt s' p i = tickNetAt s p i + (if up then -liq else liq) := by
  unfold initOrUpdateTick getTickInfo at hok
  cases hp : s.pools p with
  | none => rw [hp] at hok; simp at hok
  | some pool =>
    rw [hp] at hok
    cases ht : s.ticks p i with
    | none =>
      rw [ht] at hok
      simp only [] at hok
      split at hok
      · simp at hok
      · split at hok
        · simp at hok
        · simp only [Except.ok.injEq] at hok
          subst hok
          refine ⟨rfl, fun j hj => tickNetAt_setTick_other s p i _ j hj, ?_⟩
          rw [tickNetAt_setTick_self]
          simp only [tickNetAt, ht]
          cases up <;> simp [zeroTick]
    | some t =>
      rw [ht] at hok
      simp only [] at hok
      split at hok
      · simp at hok
      · split at hok
        · simp at hok
        · simp only [Except.ok.injEq] at hok
          subst hok
          refine ⟨rfl, fun j hj => tickNetAt_setTick_other s p i _ j hj, ?_⟩
          rw [tickNetAt_setTick_self]
          simp only [tickNetAt, ht]
          rw [apply_ite TickInfo.liquidityNet]
          simp only [ite_self]
          cases up <;> (simp; try ring)

lemma netSum_congr_update (s s' : State) (p : ℕ) (i : Int) (fs : Finset Int) (hi : i ∈ fs)
    (hother : ∀ j, j ≠ i → tickNetAt s' p j = tickNetAt s p j) :
    netSum s' p fs = netSum s p fs - tickNetAt s p i + tickNetAt s' p i := by
  unfold netSum
  rw [← Finset.add_sum_erase fs (tickNetAt s' p) hi, ← Finset.add_sum_erase fs (tickNetAt s p) hi]
  have hcongr : ∑ j ∈ fs.erase i, tickNetAt s' p j = ∑ j ∈ fs.erase i, tickNetAt s p j :=
    Finset.sum_congr rfl (fun j hj => hother j (Finset.ne_of_mem_erase hj))
  rw [hcongr]
  ring

/-- C1: after every successful createPosition/withdrawPosition (which apply the
signed liquidity delta once with upper = false at the lower tick and once with
upper = true at the upper tick through initOrUpdateTick), the sum of
liquidityNet over any finite set of tick indices containing both boundaries is
unchanged; in particular, if it was exactly zero before, it is exactly zero
after. -/
theorem C1_liquidityNet_sum_preserved (s s2 : State) (poolId : ℕ)
    (lowerTick upperTick : Int) (delta : Dec) (ids : List ℕ)
    (hok : applyPositionTicks s poolId lowerTick upperTick delta ids = Except.ok s2)
    (fs : Finset Int) (hl : lowerTick ∈ fs) (hu : upperTick ∈ fs) :
    netSum s2 poolId fs = netSum s poolId fs ∧
    (netSum s poolId fs = 0 → netSum s2 poolId fs = 0) := by
  unfold applyPositionTicks at hok
  cases h1 : initOrUpdateTick s poolId lowerTick delta false ids with
  | error e => rw [h1] at hok; simp at hok
  | ok s1 =>
    rw [h1] at hok
    simp only [] at hok
    obtain ⟨-, hother1, hself1⟩ :=
      initOrUpdateTick_spec s s1 poolId lowerTick delta false ids h1
    obtain ⟨-, hother2, hself2⟩ :=
      initOrUpdateTick_spec s1 s2 poolId upperTick delta true ids hok
    have e1 : netSum s1 poolId fs = netSum s poolId fs + delta := by
      rw [netSum_congr_update s s1 poolId lowerTick fs hl hother1, hself1]
      simp; ring
    have e2 : netSum s2 poolId fs = netSum s1 poolId fs - delta := by
      rw [netSum_congr_update s1 s2 poolId upperTick fs hu hother2, hself2]
      simp; ring
    constructor
    · rw [e2, e1]; ring
    · intro h0; rw [e2, e1, h0]; ring

/-- Witness for C1 at a concrete input: opening a position of liquidity 5 on
ticks 0 and 1 of the empty pool 1 leaves the net-liquidity sum over both
boundary ticks unchanged (and zero). -/
theorem C1_liquidityNet_sum_preserved_witness :
    netSum c1ExRes 1 {0, 1} = netSum c1ExSt 1 {0, 1} ∧
    (netSum c1ExSt 1 {0, 1} = 0 → netSum c1ExRes 1 {0, 1} = 0) :=
  C1_liquidityNet_sum_preserved c1ExSt c1ExRes 1 0 1 5 [] rfl {0, 1} (by decide) (by decide)

/-- C2 (refuting theorem): crossing tick 0 of pool 1 in `crossExSt` succeeds,
yet the persisted tick's only incentivized record (gross liquidity 1 > 0)
still has `secondsPerIncentivizedLiquidityOutside = 0`, while the freshly
recomputed value `secondsInactive / incentivizedLiquidityGross = 10 / 1` is 10:
the assignment at tick.go line 131 mutates a copy made by the range loop, so
the recomputed value is never persisted. -/
theorem C2_secondsPerLiquidityOutside_not_persisted :
    crossExPersistedOutside = some [0] ∧
    secondsPerIncentivizedLiquidityOutsideFresh 10 1 = 10 ∧ ((0 : Dec) ≠ 10) := by
  refine ⟨rfl, ?_, by norm_num⟩
  norm_num [secondsPerIncentivizedLiquidityOutsideFresh]

/-- C3 (refuting theorem): after the same successful crossTick, the pool's
`secondsPerIncentivizedLiquidityGlobal` accumulator is still 5 — not its
previous value 5 plus the freshly computed 10/1 = 10: the fresh value never
reaches the stored tick records (tick.go line 131 writes to a loop copy), so
line 138 adds only the stale stored value, and the pool-side range loop at
line 137 itself mutates copies, so nothing is added at all. -/
theorem C3_poolAccumulator_not_advanced :
    crossExPoolGlobals = some [5] ∧
    (5 : Dec) + secondsPerIncentivizedLiquidityOutsideFresh 10 1 = 15 ∧ ((5 : Dec) ≠ 15) := by
  refine ⟨rfl, ?_, by norm_num⟩
  norm_num [secondsPerIncentivizedLiquidityOutsideFresh]

/-- C4 (refuting theorem): crossing a tick holding an incentivized record with
`incentivizedLiquidityGross = 0` hits the unguarded `Dec.Quo` at tick.go line
131 and aborts with a runtime panic — the division is not guarded and the
zero-gross branch is reachable. -/
theorem C4_crossTick_division_unguarded : c4ExResult = some Err.goPanic := rfl

/-- C7 (refuting theorem): when the tick's incentive record list differs in
length from the pool's, reconciliation does not extend the tick's list.  With
the pool's list longer (`c7ExSt`: pool ids [1, 2], tick ids [1]) the loop at
tick.go line 81 indexes past the tick list and panics; with the tick's list
longer (`c7ShrinkSt`: pool ids [1], tick ids [1, 2]) the rebuilt slice is
discarded (the local `newTickIncentivizedLiquidityRecords` is never assigned
back) and the persisted tick keeps ids [1, 2], unreconciled with the pool. -/
theorem C7_reconciliation_broken :
    initOrUpdateTick c7ExSt 1 0 1 false [] = Except.error Err.goPanic ∧
    c7ShrinkPersistedIds = some [1, 2] := ⟨rfl, rfl⟩

/-- C5 (counterexample): with lowerTick = 5 ≥ upperTick = 3 but tick spacing
10, validation fails with `TickSpacingError`, not `InvalidLowerUpperTick`: the
spacing check at tick.go line 183 runs before the ordering check at line 198,
so "lowerTick ≥ upperTick always fails with InvalidLowerUpperTick regardless
of all other parameters" is false. -/
theorem C5_counterexample :
    validateTickRangeIsValid (-100) 100 10 5 3 = some (Err.tickSpacingError 5 3 10) ∧
    (5 : Int) ≥ 3 ∧
    isInvalidLowerUpperResult (validateTickRangeIsValid (-100) 100 10 5 3) = false := by
  decide

/-- C5 (amended): every input with lowerTick ≥ upperTick fails with some
error; it fails with `InvalidLowerUpperTick` precisely on inputs that first
pass the spacing and bounds checks (both ticks divisible by a nonzero
spacing, lowerTick in [MinTick, MaxTick), upperTick in (MinTick, MaxTick]);
otherwise the spacing or bounds error takes precedence. -/
theorem C5_lowerUpper_error_after_precedence (minTick maxTick : Int) (tickSpacing : ℕ)
    (lowerTick upperTick : Int) (hlu : lowerTick ≥ upperTick) :
    validateTickRangeIsValid minTick maxTick tickSpacing lowerTick upperTick ≠ none ∧
    ((tickSpacing ≠ 0 ∧
      Int.tmod lowerTick (Int.ofNat tickSpacing) = 0 ∧
      Int.tmod upperTick (Int.ofNat tickSpacing) = 0 ∧
      minTick ≤ lowerTick ∧ lowerTick < maxTick ∧ minTick < upperTick ∧ upperTick ≤ maxTick) →
      validateTickRangeIsValid minTick maxTick tickSpacing lowerTick upperTick =
        some (Err.invalidLowerUpperTickError lowerTick upperTick)) := by
  unfold validateTickRangeIsValid
  constructor
  · split_ifs <;> simp_all
  · rintro ⟨h0, hdl, hdu, h1, h2, h3, h4⟩
    split_ifs <;> simp_all <;> omega

/-- Witness for the amended C5 at a concrete input: lowerTick = 50 ≥
upperTick = -50, spacing 10, bounds [-100, 100]. -/
theorem C5_lowerUpper_error_after_precedence_witness :
    validateTickRangeIsValid (-100) 100 10 50 (-50) ≠ none ∧
    (((10 : ℕ) ≠ 0 ∧
      Int.tmod 50 (Int.ofNat 10) = 0 ∧
      Int.tmod (-50) (Int.ofNat 10) = 0 ∧
      (-100 : Int) ≤ 50 ∧ (50 : Int) < 100 ∧ (-100 : Int) < -50 ∧ (-50 : Int) ≤ 100) →
      validateTickRangeIsValid (-100) 100 10 50 (-50) =
        some (Err.invalidLowerUpperTickError 50 (-50))) :=
  C5_lowerUpper_error_after_precedence (-100) 100 10 50 (-50) (by decide)

/-- C6 (counterexample): with bounds [-100, 100], spacing 1 and
lowerTick = upperTick = 100, both ticks lie inside the inclusive interval
[MinTick, MaxTick], yet validation returns `InvalidTick` for the lower tick:
tick.go line 188 rejects `lowerTick >= MaxTick`, so "InvalidTick exactly when
a tick lies outside the inclusive interval" is false. -/
theorem C6_counterexample :
    validateTickRangeIsValid (-100) 100 1 100 100 = some (Err.invalidTickError 100 true) ∧
    (-100 : Int) ≤ 100 ∧ (100 : Int) ≤ 100 := by
  decide

/-- C6 (amended): an `InvalidTick` error is returned exactly when both ticks
pass the spacing check and either lowerTick lies outside [MinTick, MaxTick−1]
or upperTick lies outside [MinTick+1, MaxTick] — the interval is not fully
inclusive at both ends (lowerTick = MaxTick and upperTick = MinTick are
rejected).  The success direction of the claim does hold: lowerTick <
upperTick, both within [MinTick, MaxTick] and both divisible by the spacing
imply validation succeeds. -/
theorem C6_invalidTick_bounds (minTick maxTick : Int) (tickSpacing : ℕ)
    (lowerTick upperTick : Int) (h0 : tickSpacing ≠ 0) :
    (isInvalidTickResult
        (validateTickRangeIsValid minTick maxTick tickSpacing lowerTick upperTick) = true ↔
      (Int.tmod lowerTick (Int.ofNat tickSpacing) = 0 ∧
       Int.tmod upperTick (Int.ofNat tickSpacing) = 0 ∧
       (lowerTick < minTick ∨ lowerTick ≥ maxTick ∨ upperTick > maxTick ∨ upperTick ≤ minTick))) ∧
    ((minTick ≤ lowerTick ∧ lowerTick < upperTick ∧ upperTick ≤ maxTick ∧
      Int.tmod lowerTick (Int.ofNat tickSpacing) = 0 ∧
      Int.tmod upperTick (Int.ofNat tickSpacing) = 0) →
      validateTickRangeIsValid minTick maxTick tickSpacing lowerTick upperTick = none) := by
  unfold validateTickRangeIsValid
  constructor
  · split_ifs <;> simp_all [isInvalidTickResult] <;> omega
  · rintro ⟨h1, h2, h3, hdl, hdu⟩
    split_ifs <;> simp_all <;> omega

/-- Witness for the amended C6 at a concrete input: bounds [-100, 100],
spacing 10, ticks -50 < 50, both divisible — validation succeeds and the
InvalidTick characterization holds. -/
theorem C6_invalidTick_bounds_witness :
    (isInvalidTickResult (validateTickRangeIsValid (-100) 100 10 (-50) 50) = true ↔
      (Int.tmod (-50) (Int.ofNat 10) = 0 ∧
       Int.tmod 50 (Int.ofNat 10) = 0 ∧
       ((-50 : Int) < -100 ∨ (-50 : Int) ≥ 100 ∨ (50 : Int) > 100 ∨ (50 : Int) ≤ -100))) ∧
    (((-100 : Int) ≤ -50 ∧ (-50 : Int) < 50 ∧ (50 : Int) ≤ 100 ∧
      Int.tmod (-50) (Int.ofNat 10) = 0 ∧
      Int.tmod 50 (Int.ofNat 10) = 0) →
      validateTickRangeIsValid (-100) 100 10 (-50) 50 = none) :=
  C6_invalidTick_bounds (-100) 100 10 (-50) 50 (by decide)

/-- C8: for an existing pool, getTickInfo on a never-written tick index
returns the zero-valued record (liquidityGross = 0, liquidityNet = 0) without
error, and getTickInfo fails with PoolNotFoundError exactly when the
referenced pool does not exist. -/
theorem C8_getTickInfo_zero_default (s : State) (p : ℕ) (i : Int) :
    (s.pools p ≠ none → s.ticks p i = none → getTickInfo s p i = Except.ok zeroTick) ∧
    (getTickInfo s p i = Except.error (Err.poolNotFound p) ↔ s.pools p = none) := by
  unfold getTickInfo
  cases hpp : s.pools p with
  | none => simp
  | some pool => cases htt : s.ticks p i <;> simp_all

/-- Witness for C8 at a concrete input: pool 1 exists in `c8ExSt` and tick 0
was never written, so the zero record is returned. -/
theorem C8_getTickInfo_zero_default_witness :
    getTickInfo c8ExSt 1 0 = Except.ok zeroTick :=
  (C8_getTickInfo_zero_default c8ExSt 1 0).1 (by decide) rfl

/-- C9: crossTick on a pool id with no registered pool fails with the
PoolNotFoundError propagated from the tick lookup; in this embedding an error
result carries no post-state, matching the all-or-nothing transaction
semantics, and the error is raised before any write in the source. -/
theorem C9_crossTick_poolNotFound (s : State) (p : ℕ) (i : Int) (h : s.pools p = none) :
    crossTick s p i = Except.error (Err.poolNotFound p) := by
  unfold crossTick getTickInfo
  simp [h]

/-- Witness for C9 at a concrete input: the empty state has no pool 2. -/
theorem C9_crossTick_poolNotFound_witness :
    crossTick c9ExSt 2 0 = Except.error (Err.poolNotFound 2) :=
  C9_crossTick_poolNotFound c9ExSt 2 0 rfl

lemma applyCommitted_eq_fun : ∀ (committed : List ℕ)
    (recs : List TickIncentivizedLiquidityRecord) (liq : Dec) (up : Bool),
    committed.length ≤ recs.length →
    applyCommitted recs committed liq up = .ok (applyCommittedFun recs committed liq up)
  | [], recs, _, _, _ => by cases recs <;> rfl
  | _ :: _, [], _, _, h => absurd h (by simp)
  | incId :: rest, r :: recs, liq, up, h => by
    have ih := applyCommitted_eq_fun rest recs liq up (by simpa using h)
    simp [applyCommitted, applyCommittedFun, ih]

lemma applyCommittedFun_get : ∀ (committed : List ℕ)
    (recs : List TickIncentivizedLiquidityRecord) (liq : Dec) (up : Bool) (j : ℕ),
    (applyCommittedFun recs committed liq up)[j]? =
      match recs[j]?, committed[j]? with
      | some r, some cid => some (if r.id = cid then updateRec r liq up else r)
      | some r, none => some r
      | none, _ => none
  | [], recs, liq, up, j => by
    cases hr : recs[j]? <;> simp [applyCommittedFun, hr]
  | _ :: _, [], liq, up, j => by simp [applyCommittedFun]
  | incId :: rest, r :: recs, liq, up, 0 => by simp [applyCommittedFun]
  | incId :: rest, r :: recs, liq, up, j + 1 => by
    simpa [applyCommittedFun] using applyCommittedFun_get rest recs liq up j

/-- C10: the committed-incentive update of initOrUpdateTick is positional: as
long as the committed list is no longer than the record list the loop
succeeds, record j is replaced by its updated form exactly when its id equals
the committed id at the same position j, and a committed id whose same-index
record has a different id is silently skipped — no error, record unchanged. -/
theorem C10_positional_incentive_update (recs : List TickIncentivizedLiquidityRecord)
    (committed : List ℕ) (liq : Dec) (up : Bool) (h : committed.length ≤ recs.length) :
    applyCommitted recs committed liq up = .ok (applyCommittedFun recs committed liq up) ∧
    (∀ (j : ℕ) r cid, recs[j]? = some r → committed[j]? = some cid →
      (applyCommittedFun recs committed liq up)[j]? =
        some (if r.id = cid then updateRec r liq up else r)) ∧
    (∀ (j : ℕ) r, recs[j]? = some r → committed[j]? = none →
      (applyCommittedFun recs committed liq up)[j]? = some r) := by
  refine ⟨applyCommitted_eq_fun committed recs liq up h, ?_, ?_⟩
  · intro j r cid hr hc
    rw [applyCommittedFun_get committed recs liq up j, hr, hc]
  · intro j r hr hc
    rw [applyCommittedFun_get committed recs liq up j, hr, hc]

/-- Witness for C10 at a concrete input: records with ids [7, 8] against
committed ids [7, 9] — the loop succeeds and produces the positional update
(index 0 matches, index 1 is silently skipped). -/
theorem C10_positional_incentive_update_witness :
    applyCommitted c10ExRecs c10ExIds 2 false =
      .ok (applyCommittedFun c10ExRecs c10ExIds 2 false) :=
  (C10_positional_incentive_update c10ExRecs c10ExIds 2 false (by decide)).1
